import Mathlib

/-!
Shallow embedding of `src/cryptohandler.py` (class `CryptoHandler`), a client
wrapper around the CoinGecko market-data HTTP API.

Modelling choices, all read off the source:
* JSON values decoded from response bodies are modelled by the inductive
  `Json` (numeric literals appearing in the claims are integers, so numbers
  are `Int`).
* The network is a `World`: a function from URL to what `requests.get`
  does there — either a response (status code plus the result of parsing the
  body as JSON, `none` when the body is not valid JSON, in which case
  `response.json()` raises) or a connection-level `RequestException`.
* Python exceptions are a class tag (`ExcClass`) plus a message.  The class
  hierarchy facts the handlers rely on are encoded in `ExcClass.isSubclassOf`:
  `requests.exceptions.HTTPError` and `requests.exceptions.JSONDecodeError`
  are subclasses of `RequestException`, and `JSONDecodeError` is also a
  subclass of `ValueError` (via `json.JSONDecodeError`).
* A `try/except` whose handlers re-raise is fused into: compute the body's
  outcome, then map an error through the first matching clause.  A `raise C(msg)`
  statement is modelled as producing an exception of class `C` carrying `msg`.
* Each Python method threads `self` explicitly (`MethodCall` carries the
  result, the list of URLs requested, and the state of the object after the
  call); none of the method bodies contains an attribute assignment, which the
  threading makes visible.
* Attributes that `__init__` failed to assign are `none`; reading such an
  attribute raises `AttributeError`, as in Python.
-/

/-- A JSON value, as returned by `response.json()`. -/
inductive Json where
  | null
  | bool (b : Bool)
  | num (n : Int)
  | str (s : String)
  | arr (xs : List Json)
  | obj (kvs : List (String × Json))

mutual

/-- Structural equality of decoded JSON values: what Python `==` computes on
the results of `response.json()` (the values compared by the source are
strings, so the numeric `True == 1` subtleties of Python never arise). -/
def Json.beq (x y : Json) : Bool :=
  match x, y with
  | .null, .null => true
  | .bool p, .bool q => p == q
  | .num p, .num q => p == q
  | .str p, .str q => p == q
  | .arr ps, .arr qs => Json.beqElems ps qs
  | .obj ps, .obj qs => Json.beqPairs ps qs
  | _, _ => false

/-- Elementwise equality of two decoded JSON arrays. -/
def Json.beqElems (xs ys : List Json) : Bool :=
  match xs, ys with
  | [], [] => true
  | p :: ps, q :: qs => Json.beq p q && Json.beqElems ps qs
  | _, _ => false

/-- Key and value equality of two decoded JSON objects, in order. -/
def Json.beqPairs (xs ys : List (String × Json)) : Bool :=
  match xs, ys with
  | [], [] => true
  | p :: ps, q :: qs => p.fst == q.fst && Json.beq p.snd q.snd && Json.beqPairs ps qs
  | _, _ => false

end

instance : BEq Json := ⟨Json.beq⟩

/-- The Python exception classes the source raises or handles.
`HTTPError`, `JSONDecodeError`, `RequestException` are the ones imported from
`requests.exceptions` (line 8 of the source). -/
inductive ExcClass where
  | HTTPError
  | JSONDecodeError
  | RequestException
  | ValueError
  | AttributeError
  | KeyError
  | TypeError
deriving DecidableEq, Repr

/-- `a.isSubclassOf b`: Python `issubclass(a, b)` restricted to the classes in
play.  `HTTPError < RequestException`; `JSONDecodeError < InvalidJSONError <
RequestException` and `JSONDecodeError < json.JSONDecodeError < ValueError`. -/
def ExcClass.isSubclassOf (a b : ExcClass) : Bool :=
  a == b ||
    match a, b with
    | .HTTPError, .RequestException => true
    | .JSONDecodeError, .RequestException => true
    | .JSONDecodeError, .ValueError => true
    | _, _ => false

/-- A raised Python exception: its class and its message. -/
structure PyError where
  cls : ExcClass
  msg : String
deriving DecidableEq, Repr

/-- Whether an `except clause:` catches exception `e`. -/
def ExcClass.catches (clause : ExcClass) (e : PyError) : Bool :=
  e.cls.isSubclassOf clause

/-- What `requests.get` produced at some URL: the HTTP status code and the
result of parsing the body as JSON (`none` when the body is not valid JSON). -/
structure HttpResponse where
  status_code : Nat
  jsonBody : Option Json

/-- Outcome of `requests.get url`: a response, or a raised
`RequestException` (network/connection failure). -/
inductive HttpOutcome where
  | response (r : HttpResponse)
  | requestError (msg : String)

/-- The network environment: what `requests.get` does at each URL. -/
def World : Type := String → HttpOutcome

def supported_vs_currencies_url : String :=
  "https://api.coingecko.com/api/v3/simple/supported_vs_currencies"

def coins_list_url : String :=
  "https://api.coingecko.com/api/v3/coins/list"

/-- `f"https://api.coingecko.com/api/v3/coins/markets?vs_currency={base_currency}"` -/
def coins_markets_url (base_currency : String) : String :=
  "https://api.coingecko.com/api/v3/coins/markets?vs_currency=" ++ base_currency

/-- `f"https://api.coingecko.com/api/v3/coins/{id}"` -/
def coin_detail_url (id : String) : String :=
  "https://api.coingecko.com/api/v3/coins/" ++ id

/-- Substring test on character lists, for Python `x in s` on strings. -/
def listContainsSub (needle hay : List Char) : Bool :=
  match hay with
  | [] => needle.isEmpty
  | _ :: t => needle.isPrefixOf hay || listContainsSub needle t

/-- Python `x in v` for a string `x` and a decoded JSON value `v`:
membership for a list, key membership for a dict, substring for a string,
`TypeError` otherwise. -/
def pyIn (x : String) (v : Json) : Except PyError Bool :=
  match v with
  | .arr xs => .ok (xs.contains (Json.str x))
  | .obj kvs => .ok (kvs.any fun kv => kv.fst == x)
  | .str s => .ok (listContainsSub x.data s.data)
  | _ => .error ⟨.TypeError, "argument of type is not iterable"⟩

/-- Python `v[k]` for a string key `k` on a decoded JSON value: dict lookup
(`KeyError` when the key is missing), `TypeError` on any non-dict. -/
def pyGetItemStr (v : Json) (k : String) : Except PyError Json :=
  match v with
  | .obj kvs => match kvs.lookup k with
    | some x => .ok x
    | none => .error ⟨.KeyError, k⟩
  | .str _ => .error ⟨.TypeError, "string indices must be integers"⟩
  | _ => .error ⟨.TypeError, "indices must be integers"⟩

/-- Python `for x in v`: the sequence of items iterated over, or a
`TypeError` when `v` is not iterable. -/
def pyIterate (v : Json) : Except PyError (List Json) :=
  match v with
  | .arr xs => .ok xs
  | .obj kvs => .ok (kvs.map fun kv => Json.str kv.fst)
  | .str s => .ok (s.data.map fun c => Json.str (String.mk [c]))
  | _ => .error ⟨.TypeError, "object is not iterable"⟩

/-- Lines 48..61 of the source, `CryptoHandler._api_request` (no attribute of
`self` is read or written by its body; the `x-cg-demo-api-key` header does not
affect the modelled outcome).  The `try` body issues `requests.get`, calls
`response.raise_for_status()` — which raises `HTTPError` exactly for status
codes 400..599 — and then `response.json()`.  Each `except` clause re-raises
the same class with a rewritten message, fused here into one step per branch.
Returns the result together with the list of URLs requested. -/
def _api_request (w : World) (url : String) : Except PyError Json × List String :=
  match w url with
  | .requestError m =>
      (.error ⟨.RequestException, "Request failed: " ++ m ++ " for URL: " ++ url⟩, [url])
  | .response r =>
      if 400 ≤ r.status_code ∧ r.status_code < 600 then
        (.error ⟨.HTTPError,
          "HTTP request failed with status code " ++ toString r.status_code
            ++ " for URL: " ++ url⟩, [url])
      else
        match r.jsonBody with
        | some v => (.ok v, [url])
        | none => (.error ⟨.JSONDecodeError,
            "Response from " ++ url ++ " could not be decoded as JSON."⟩, [url])

/-- The `except` block shared verbatim by the four public methods
(`except HTTPError` / `except JSONDecodeError` / `except RequestException`,
each re-raising the same class with a fixed message; an exception matching no
clause propagates unchanged). -/
def rewrap (e : PyError) : PyError :=
  if ExcClass.HTTPError.catches e then ⟨.HTTPError, "HTTP error occurred"⟩
  else if ExcClass.JSONDecodeError.catches e then ⟨.JSONDecodeError, "JSON decode error occurred"⟩
  else if ExcClass.RequestException.catches e then
    ⟨.RequestException, "Request error occurred: " ++ e.msg⟩
  else e

/-- Lines 84..109: `get_supported_currencies` — `_api_request` on the
supported-currencies URL, errors mapped through the shared `except` block.
Its body reads no attribute of `self`. -/
def get_supported_currencies (w : World) : Except PyError Json × List String :=
  match _api_request w supported_vs_currencies_url with
  | (.ok v, log) => (.ok v, log)
  | (.error e, log) => (.error (rewrap e), log)

/-- Lines 111..135: `get_crypto_currencies` — `_api_request` on the coin-list
URL, errors mapped through the shared `except` block.  Its body reads no
attribute of `self`. -/
def get_crypto_currencies (w : World) : Except PyError Json × List String :=
  match _api_request w coins_list_url with
  | (.ok v, log) => (.ok v, log)
  | (.error e, log) => (.error (rewrap e), log)

/-- The object state: `base_currency` is assigned on line 17; the two cache
attributes are assigned only by the `try` block of `__init__` (lines 20..21)
and are `none` when that assignment never executed. -/
structure CryptoHandler where
  base_currency : String
  supported_currencies : Option Json
  supported_crypto_currencies : Option Json

/-- Result of calling a method on a `CryptoHandler` object: the returned value
or raised exception, the URLs requested during the call, and the state of the
object after the call. -/
structure MethodCall (α : Type) where
  result : Except PyError α
  requests : List String
  state : CryptoHandler

/-- The loop of `_is_valid_crypto_id` (lines 77..82): for each item,
evaluate `currency["id"] == id`; return `True` on a match, raise `ValueError`
when the loop exhausts the list. -/
def validationLoop (id : String) : List Json → Except PyError Bool
  | [] => .error ⟨.ValueError,
      "Provided cryptocurrency ID '" ++ id ++ "' does not exist in supported list."⟩
  | c :: rest =>
    match pyGetItemStr c "id" with
    | .error e => .error e
    | .ok v => if v == Json.str id then .ok true else validationLoop id rest

/-- Lines 63..82: `_is_valid_crypto_id`.  Reading
`self.supported_crypto_currencies` raises `AttributeError` when the attribute
was never assigned; otherwise the `for` loop scans it. -/
def _is_valid_crypto_id (self : CryptoHandler) (id : String) :
    Except PyError Bool × CryptoHandler :=
  match self.supported_crypto_currencies with
  | none => (.error ⟨.AttributeError,
      "CryptoHandler object has no attribute supported_crypto_currencies"⟩, self)
  | some v =>
    match pyIterate v with
    | .error e => (.error e, self)
    | .ok items => (validationLoop id items, self)

/-- Method view of `_api_request`: its body touches no attribute of `self`. -/
def _api_request_m (self : CryptoHandler) (w : World) (url : String) : MethodCall Json :=
  match _api_request w url with
  | (res, log) => ⟨res, log, self⟩

/-- Method view of `get_supported_currencies`. -/
def get_supported_currencies_m (self : CryptoHandler) (w : World) : MethodCall Json :=
  match get_supported_currencies w with
  | (res, log) => ⟨res, log, self⟩

/-- Method view of `get_crypto_currencies`. -/
def get_crypto_currencies_m (self : CryptoHandler) (w : World) : MethodCall Json :=
  match get_crypto_currencies w with
  | (res, log) => ⟨res, log, self⟩

/-- Lines 137..171: `get_crypto_currencies_detailed`.  The `try` body tests
`base_currency in self.supported_currencies` (an `AttributeError` when that
attribute was never assigned); on membership it requests the markets URL,
otherwise it raises `ValueError`.  Errors pass through the shared `except`
block (`ValueError` and `AttributeError` match no clause and propagate). -/
def get_crypto_currencies_detailed (self : CryptoHandler) (w : World)
    (base_currency : String) : MethodCall Json :=
  match self.supported_currencies with
  | none => ⟨.error (rewrap ⟨.AttributeError,
      "CryptoHandler object has no attribute supported_currencies"⟩), [], self⟩
  | some sv =>
    match pyIn base_currency sv with
    | .error e => ⟨.error (rewrap e), [], self⟩
    | .ok b =>
      if b then
        match _api_request w (coins_markets_url base_currency) with
        | (.ok v, log) => ⟨.ok v, log, self⟩
        | (.error e, log) => ⟨.error (rewrap e), log, self⟩
      else
        ⟨.error (rewrap ⟨.ValueError, "Unsupported currency provided: " ++ base_currency⟩),
          [], self⟩

/-- The Python signature defaults `base_currency` to `"usd"`. -/
def get_crypto_currencies_detailed_default (self : CryptoHandler) (w : World) :
    MethodCall Json :=
  get_crypto_currencies_detailed self w "usd"

/-- Lines 173..199: `get_specific_crypto`.  The `try` body validates the id
(any exception from the validation reaches the `except` block), then requests
the coin-detail URL.  Errors pass through the shared `except` block. -/
def get_specific_crypto (self : CryptoHandler) (w : World) (id : String) :
    MethodCall Json :=
  match (_is_valid_crypto_id self id).fst with
  | .error e => ⟨.error (rewrap e), [], (_is_valid_crypto_id self id).snd⟩
  | .ok _ =>
    match _api_request w (coin_detail_url id) with
    | (.ok v, log) => ⟨.ok v, log, (_is_valid_crypto_id self id).snd⟩
    | (.error e, log) => ⟨.error (rewrap e), log, (_is_valid_crypto_id self id).snd⟩

/-- Lines 16..27: `__init__`.  Assigns `base_currency`, then tries to assign
the two caches in order; `except (HTTPError, RequestException)` and
`except JSONDecodeError` log and swallow the failure (leaving every attribute
the failed assignment did not reach unassigned); any other exception would
propagate out of the constructor. -/
def __init__ (w : World) (base_currency : String) :
    Except PyError CryptoHandler × List String :=
  let self0 : CryptoHandler := ⟨base_currency, none, none⟩
  match get_supported_currencies w with
  | (.error e, log1) =>
    if ExcClass.HTTPError.catches e || ExcClass.RequestException.catches e
        || ExcClass.JSONDecodeError.catches e then
      (.ok self0, log1)
    else
      (.error e, log1)
  | (.ok sc, log1) =>
    let self1 : CryptoHandler := ⟨base_currency, some sc, none⟩
    match get_crypto_currencies w with
    | (.error e, log2) =>
      if ExcClass.HTTPError.catches e || ExcClass.RequestException.catches e
          || ExcClass.JSONDecodeError.catches e then
        (.ok self1, log1 ++ log2)
      else
        (.error e, log1 ++ log2)
    | (.ok scc, log2) =>
      (.ok ⟨base_currency, some sc, some scc⟩, log1 ++ log2)

/-- The class of the exception a computation raised, `none` on a normal
return. -/
def errCls {α : Type} : Except PyError α → Option ExcClass
  | .error e => some e.cls
  | .ok _ => none

/-! ### Helper lemmas about `_api_request` and the shared `except` block -/

/-- `rewrap` keeps the exception class when the class is one of the three
transport classes (each is caught by its own clause first). -/
theorem rewrap_cls_of_transport (e : PyError)
    (h : e.cls = .HTTPError ∨ e.cls = .JSONDecodeError ∨ e.cls = .RequestException) :
    (rewrap e).cls = e.cls := by
  rcases e with ⟨c, m⟩
  rcases h with h | h | h <;> simp only at h <;> subst h <;> rfl

/-- `rewrap` does not move an exception into or out of the `ValueError`
class unless it is a `JSONDecodeError`. -/
theorem rewrap_valueError (e : PyError) (h : e.cls = .ValueError) :
    rewrap e = e := by
  rcases e with ⟨c, m⟩
  simp only at h
  subst h
  rfl

/-- On a response whose status code is outside 400..599 and whose body
decodes, `_api_request` returns the decoded body. -/
theorem api_request_ok (w : World) (url : String) (status : Nat) (v : Json)
    (hw : w url = .response ⟨status, some v⟩)
    (hs : ¬(400 ≤ status ∧ status < 600)) :
    _api_request w url = (.ok v, [url]) := by
  simp only [_api_request, hw]
  rw [if_neg hs]

/-- On a response whose status code is outside 400..599 and whose body does
not decode, `_api_request` raises `JSONDecodeError`. -/
theorem api_request_decode_error (w : World) (url : String) (status : Nat)
    (hw : w url = .response ⟨status, none⟩)
    (hs : ¬(400 ≤ status ∧ status < 600)) :
    _api_request w url = (.error ⟨.JSONDecodeError,
      "Response from " ++ url ++ " could not be decoded as JSON."⟩, [url]) := by
  simp only [_api_request, hw]
  rw [if_neg hs]

/-- On a response with status code in 400..599, `_api_request` raises
`HTTPError` (this is `response.raise_for_status()` plus the rewrapping
handler). -/
theorem api_request_http_error (w : World) (url : String) (r : HttpResponse)
    (hw : w url = .response r)
    (h400 : 400 ≤ r.status_code) (h600 : r.status_code < 600) :
    _api_request w url = (.error ⟨.HTTPError,
      "HTTP request failed with status code " ++ toString r.status_code
        ++ " for URL: " ++ url⟩, [url]) := by
  simp only [_api_request, hw]
  rw [if_pos ⟨h400, h600⟩]

/-- When `requests.get` raises, `_api_request` raises `RequestException`. -/
theorem api_request_request_error (w : World) (url : String) (m : String)
    (hw : w url = .requestError m) :
    _api_request w url = (.error ⟨.RequestException,
      "Request failed: " ++ m ++ " for URL: " ++ url⟩, [url]) := by
  simp only [_api_request, hw]

/-- Every exception `_api_request` raises has one of the three transport
classes. -/
theorem api_request_error_classes (w : World) (url : String) (e : PyError)
    (h : (_api_request w url).fst = .error e) :
    e.cls = .HTTPError ∨ e.cls = .JSONDecodeError ∨ e.cls = .RequestException := by
  cases hw : w url with
  | requestError m =>
    rw [api_request_request_error w url m hw] at h
    simp only [Except.error.injEq] at h
    subst h
    right; right; rfl
  | response r =>
    by_cases hs : 400 ≤ r.status_code ∧ r.status_code < 600
    · rw [api_request_http_error w url r hw hs.1 hs.2] at h
      simp only [Except.error.injEq] at h
      subst h
      left; rfl
    · cases hb : r.jsonBody with
      | some v =>
        have hr : w url = HttpOutcome.response ⟨r.status_code, some v⟩ := by
          rw [hw]; cases r; simp only at hb; rw [hb]
        rw [api_request_ok w url r.status_code v hr hs] at h
        simp at h
      | none =>
        have hr : w url = HttpOutcome.response ⟨r.status_code, none⟩ := by
          rw [hw]; cases r; simp only at hb; rw [hb]
        rw [api_request_decode_error w url r.status_code hr hs] at h
        simp only [Except.error.injEq] at h
        subst h
        right; left; rfl

/-! ### C8: supported currencies are returned exactly as decoded -/

/-- Claim C8: `get_supported_currencies` returns the fiat currency codes
exactly as, and in the order that, the endpoint's decoded JSON body lists
them: the decoded body is handed back unmodified. -/
theorem get_supported_currencies_passthrough (w : World) (v : Json)
    (hw : w supported_vs_currencies_url = .response ⟨200, some v⟩) :
    (get_supported_currencies w).fst = .ok v := by
  have h := api_request_ok w supported_vs_currencies_url 200 v hw (by decide)
  simp only [get_supported_currencies, h]

/-- Stub world for C8: every endpoint answers 200 with body `["usd","eur"]`. -/
def stubCurrenciesWorld : World :=
  fun _ => .response ⟨200, some (Json.arr [Json.str "usd", Json.str "eur"])⟩

/-- Witness for C8 at the spec's stub body `["usd","eur"]`: those two codes
come back in that order. -/
theorem get_supported_currencies_passthrough_witness :
    (get_supported_currencies stubCurrenciesWorld).fst =
      .ok (Json.arr [Json.str "usd", Json.str "eur"]) :=
  get_supported_currencies_passthrough stubCurrenciesWorld
    (Json.arr [Json.str "usd", Json.str "eur"]) rfl

/-! ### C7: market data is a pure passthrough -/

/-- Claim C7: when the market-data endpoint responds 200 with a valid JSON
body and the base currency passes the cached-set membership test,
`get_crypto_currencies_detailed` returns the decoded body unmodified. -/
theorem get_crypto_currencies_detailed_passthrough (self : CryptoHandler) (w : World)
    (bc : String) (sv v : Json)
    (hsc : self.supported_currencies = some sv)
    (hmem : pyIn bc sv = .ok true)
    (hw : w (coins_markets_url bc) = .response ⟨200, some v⟩) :
    (get_crypto_currencies_detailed self w bc).result = .ok v := by
  have h := api_request_ok w (coins_markets_url bc) 200 v hw (by decide)
  simp [get_crypto_currencies_detailed, hsc, hmem, h]

/-- Handler whose cached supported-currency set is `["usd"]` (and an empty
coin list), as after a successful construction against such endpoints. -/
def usdStubHandler : CryptoHandler :=
  ⟨"usd", some (Json.arr [Json.str "usd"]), some (Json.arr [])⟩

/-- The one-record stub body of the spec:
`[{"id":"bitcoin","current_price":50000,"market_cap":1000000,"total_volume":500}]`. -/
def marketsStubBody : Json :=
  Json.arr [Json.obj [("id", Json.str "bitcoin"), ("current_price", Json.num 50000),
    ("market_cap", Json.num 1000000), ("total_volume", Json.num 500)]]

/-- Stub world for C7: every endpoint answers 200 with the one-record body. -/
def marketsStubWorld : World := fun _ => .response ⟨200, some marketsStubBody⟩

/-- Witness for C7: `get_crypto_currencies_detailed("usd")` against the stub
returns exactly that one record. -/
theorem get_crypto_currencies_detailed_passthrough_witness :
    (get_crypto_currencies_detailed usdStubHandler marketsStubWorld "usd").result =
      .ok marketsStubBody :=
  get_crypto_currencies_detailed_passthrough usdStubHandler marketsStubWorld "usd"
    (Json.arr [Json.str "usd"]) marketsStubBody rfl rfl rfl

/-! ### C5: non-2xx status — corrected -/

/-- World for the C5 counterexample: a `304 Not Modified` response (which
`requests` does not treat as a redirect and returns as-is) whose body decodes
as the empty JSON array. -/
def world304 : World := fun _ => .response ⟨304, some (Json.arr [])⟩

/-- Counterexample to claim C5 as stated: status 304 is not a 2xx status,
yet `_api_request` raises nothing and returns the body data —
`response.raise_for_status()` only raises for status codes 400..599. -/
theorem non2xx_returns_body_counterexample :
    ¬(200 ≤ 304 ∧ 304 ≤ 299) ∧
    (_api_request world304 supported_vs_currencies_url).fst = .ok (Json.arr []) := by
  constructor
  · decide
  · rfl

/-- Claim C5 (amended): for every HTTP response with a status code in
400..599, `_api_request` raises `HTTPError` and never returns the body data.
(Non-2xx codes outside that range, such as 304, are not raised on.) -/
theorem http_error_on_4xx_5xx (w : World) (url : String) (r : HttpResponse)
    (hw : w url = .response r) (h400 : 400 ≤ r.status_code) (h600 : r.status_code < 600) :
    (_api_request w url).fst = .error ⟨.HTTPError,
      "HTTP request failed with status code " ++ toString r.status_code
        ++ " for URL: " ++ url⟩ := by
  rw [api_request_http_error w url r hw h400 h600]

/-- World where every endpoint answers 404 (body not decodable). -/
def world404 : World := fun _ => .response ⟨404, none⟩

/-- Witness for the amended C5 at status 404. -/
theorem http_error_on_4xx_5xx_witness :
    (_api_request world404 coins_list_url).fst = .error ⟨.HTTPError,
      "HTTP request failed with status code " ++ toString (404 : Nat)
        ++ " for URL: " ++ coins_list_url⟩ :=
  http_error_on_4xx_5xx world404 coins_list_url ⟨404, none⟩ rfl (by decide) (by decide)

/-! ### C1: construction under total network failure — code bug -/

/-- World for C1: every `requests.get` raises (simulated network failure). -/
def failWorld : World := fun _ => .requestError "simulated network failure"

/-- Claim C1 is a code bug.  The claim (and §8 of the spec, and the
docstring of `get_specific_crypto`) says that after a construction whose two
lookup fetches both fail, `get_specific_crypto(id)` raises
`ValueError` because the cached coin set is empty.  In the code, the failed
`try` block of `__init__` leaves `supported_currencies` and
`supported_crypto_currencies` unassigned rather than empty, so
`_is_valid_crypto_id` raises `AttributeError` — a class unrelated to
`ValueError` — which no `except` clause of `get_specific_crypto` catches.
This theorem evaluates the code at the failing input: the constructor does
swallow the failures and returns a usable object with both caches absent, and
the subsequent call raises `AttributeError`, not `ValueError`. -/
theorem init_failure_then_get_specific_crypto_attribute_error :
    (__init__ failWorld "usd").fst = .ok ⟨"usd", none, none⟩ ∧
    (get_specific_crypto ⟨"usd", none, none⟩ failWorld "bitcoin").result =
      .error ⟨.AttributeError,
        "CryptoHandler object has no attribute supported_crypto_currencies"⟩ ∧
    ExcClass.AttributeError ≠ ExcClass.ValueError ∧
    (ExcClass.AttributeError.isSubclassOf .ValueError) = false := by
  refine ⟨rfl, rfl, by decide, by decide⟩

/-! ### C2: invalid JSON on a 200 response raises `JSONDecodeError` everywhere -/

/-- Claim C2: for every request whose response has status 200 but whose body
is not valid JSON, `_api_request` — and each public method that calls it,
with its validation hypotheses satisfied so the request is reached — raises
`JSONDecodeError` and nothing else, and never returns normally. -/
theorem decode_failure_propagates (w : World) (self : CryptoHandler) (bc id : String)
    (sv : Json)
    (hw : ∀ u, w u = .response ⟨200, none⟩)
    (hsc : self.supported_currencies = some sv)
    (hbc : pyIn bc sv = .ok true)
    (hid : (_is_valid_crypto_id self id).fst = .ok true) :
    errCls (_api_request w supported_vs_currencies_url).fst = some .JSONDecodeError ∧
    errCls (get_supported_currencies w).fst = some .JSONDecodeError ∧
    errCls (get_crypto_currencies w).fst = some .JSONDecodeError ∧
    errCls (get_crypto_currencies_detailed self w bc).result = some .JSONDecodeError ∧
    errCls (get_specific_crypto self w id).result = some .JSONDecodeError := by
  have hapi : ∀ u, _api_request w u = (.error ⟨.JSONDecodeError,
      "Response from " ++ u ++ " could not be decoded as JSON."⟩, [u]) :=
    fun u => api_request_decode_error w u 200 (hw u) (by decide)
  refine ⟨?_, ?_, ?_, ?_, ?_⟩
  · rw [hapi]; rfl
  · simp only [get_supported_currencies, hapi]; rfl
  · simp only [get_crypto_currencies, hapi]; rfl
  · simp only [get_crypto_currencies_detailed, hsc, hbc, hapi]; rfl
  · simp only [get_specific_crypto, hid, hapi]; rfl

/-- World for the C2 witness: every endpoint answers 200 with an
undecodable body. -/
def badJsonWorld : World := fun _ => .response ⟨200, none⟩

/-- Handler with both caches populated (`["usd"]`, one bitcoin descriptor). -/
def stockedHandler : CryptoHandler :=
  ⟨"usd", some (Json.arr [Json.str "usd"]),
    some (Json.arr [Json.obj [("id", Json.str "bitcoin")]])⟩

/-- Witness for C2 at concrete inputs. -/
theorem decode_failure_propagates_witness :
    errCls (_api_request badJsonWorld supported_vs_currencies_url).fst
        = some .JSONDecodeError ∧
    errCls (get_supported_currencies badJsonWorld).fst = some .JSONDecodeError ∧
    errCls (get_crypto_currencies badJsonWorld).fst = some .JSONDecodeError ∧
    errCls (get_crypto_currencies_detailed stockedHandler badJsonWorld "usd").result
        = some .JSONDecodeError ∧
    errCls (get_specific_crypto stockedHandler badJsonWorld "bitcoin").result
        = some .JSONDecodeError :=
  decode_failure_propagates badJsonWorld stockedHandler "usd" "bitcoin"
    (Json.arr [Json.str "usd"]) (fun _ => rfl) rfl rfl rfl

/-! ### C3: unknown coin id raises `ValueError` with no network request -/

/-- The validation loop raises `ValueError` when every scanned descriptor
carries an `"id"` different from the one sought. -/
theorem validationLoop_absent (id : String) (items : List Json)
    (habs : ∀ c ∈ items, ∃ s, pyGetItemStr c "id" = .ok (Json.str s) ∧ s ≠ id) :
    validationLoop id items = .error ⟨.ValueError,
      "Provided cryptocurrency ID '" ++ id ++ "' does not exist in supported list."⟩ := by
  induction items with
  | nil => rfl
  | cons c rest ih =>
    obtain ⟨s, hs, hneq⟩ := habs c (List.mem_cons_self c rest)
    have hb : (Json.str s == Json.str id) = false := by
      show Json.beq (Json.str s) (Json.str id) = false
      simp only [Json.beq]
      exact beq_eq_false_iff_ne.mpr hneq
    simp only [validationLoop, hs, hb, Bool.false_eq_true, if_false]
    exact ih fun d hd => habs d (List.mem_cons_of_mem _ hd)

/-- Claim C3: for every id absent from the populated coin-descriptor cache,
`get_specific_crypto` raises `ValueError` and issues no network request. -/
theorem invalid_id_raises_without_request (self : CryptoHandler) (w : World)
    (id : String) (items : List Json)
    (hset : self.supported_crypto_currencies = some (Json.arr items))
    (habs : ∀ c ∈ items, ∃ s, pyGetItemStr c "id" = .ok (Json.str s) ∧ s ≠ id) :
    (get_specific_crypto self w id).result = .error ⟨.ValueError,
      "Provided cryptocurrency ID '" ++ id ++ "' does not exist in supported list."⟩ ∧
    (get_specific_crypto self w id).requests = [] := by
  have hloop := validationLoop_absent id items habs
  have hvalid : _is_valid_crypto_id self id = (.error ⟨.ValueError,
      "Provided cryptocurrency ID '" ++ id ++ "' does not exist in supported list."⟩, self) := by
    simp only [_is_valid_crypto_id, hset, pyIterate, hloop]
  simp [get_specific_crypto, hvalid]
  exact rewrap_valueError _ rfl

/-- Handler whose coin cache holds only the bitcoin descriptor (its
supported-currency cache is irrelevant here). -/
def bitcoinOnlyHandler : CryptoHandler :=
  ⟨"usd", none, some (Json.arr [Json.obj [("id", Json.str "bitcoin")]])⟩

/-- Witness for C3: asking for `dogecoin` with only `bitcoin` cached raises
`ValueError` and requests nothing, even though the network would fail. -/
theorem invalid_id_raises_without_request_witness :
    (get_specific_crypto bitcoinOnlyHandler failWorld "dogecoin").result =
      .error ⟨.ValueError,
        "Provided cryptocurrency ID '" ++ "dogecoin"
          ++ "' does not exist in supported list."⟩ ∧
    (get_specific_crypto bitcoinOnlyHandler failWorld "dogecoin").requests = [] :=
  invalid_id_raises_without_request bitcoinOnlyHandler failWorld "dogecoin"
    [Json.obj [("id", Json.str "bitcoin")]] rfl
    (by
      intro c hc
      rw [List.mem_singleton] at hc
      subst hc
      exact ⟨"bitcoin", rfl, by decide⟩)

/-! ### C4: rewrapping preserves the failure kind -/

/-- The shared `except` block maps an exception whose class is one of the
three transport classes to an exception of the same class. -/
theorem rewrap_keeps (e : PyError) (k : ExcClass)
    (hk : k = .HTTPError ∨ k = .JSONDecodeError ∨ k = .RequestException)
    (hcls : e.cls = k) : (rewrap e).cls = k := by
  rw [rewrap_cls_of_transport e (by rw [hcls]; exact hk), hcls]

/-- Claim C4: whenever `_api_request` raises one of its three failure kinds
at the URL a higher-level method requests, that method raises an exception of
the same kind (the message may change, the kind never does).  The validation
hypotheses put the two validating methods past their local checks. -/
theorem failure_kind_preserved (w : World) (self : CryptoHandler) (bc id : String)
    (sv : Json) (k : ExcClass)
    (hk : k = .HTTPError ∨ k = .JSONDecodeError ∨ k = .RequestException)
    (hsc : self.supported_currencies = some sv)
    (hbc : pyIn bc sv = .ok true)
    (hid : (_is_valid_crypto_id self id).fst = .ok true) :
    (errCls (_api_request w supported_vs_currencies_url).fst = some k →
      errCls (get_supported_currencies w).fst = some k) ∧
    (errCls (_api_request w coins_list_url).fst = some k →
      errCls (get_crypto_currencies w).fst = some k) ∧
    (errCls (_api_request w (coins_markets_url bc)).fst = some k →
      errCls (get_crypto_currencies_detailed self w bc).result = some k) ∧
    (errCls (_api_request w (coin_detail_url id)).fst = some k →
      errCls (get_specific_crypto self w id).result = some k) := by
  refine ⟨?_, ?_, ?_, ?_⟩
  · intro h
    cases hp : _api_request w supported_vs_currencies_url with
    | mk res log =>
      rw [hp] at h
      cases res with
      | ok v => simp [errCls] at h
      | error e =>
        simp only [errCls] at h
        simp only [get_supported_currencies, hp, errCls]
        exact congrArg some (rewrap_keeps e k hk (Option.some.inj h))
  · intro h
    cases hp : _api_request w coins_list_url with
    | mk res log =>
      rw [hp] at h
      cases res with
      | ok v => simp [errCls] at h
      | error e =>
        simp only [errCls] at h
        simp only [get_crypto_currencies, hp, errCls]
        exact congrArg some (rewrap_keeps e k hk (Option.some.inj h))
  · intro h
    cases hp : _api_request w (coins_markets_url bc) with
    | mk res log =>
      rw [hp] at h
      cases res with
      | ok v => simp [errCls] at h
      | error e =>
        simp only [errCls] at h
        simp only [get_crypto_currencies_detailed, hsc, hbc, hp, errCls]
        exact congrArg some (rewrap_keeps e k hk (Option.some.inj h))
  · intro h
    cases hp : _api_request w (coin_detail_url id) with
    | mk res log =>
      rw [hp] at h
      cases res with
      | ok v => simp [errCls] at h
      | error e =>
        simp only [errCls] at h
        simp only [get_specific_crypto, hid, hp, errCls]
        exact congrArg some (rewrap_keeps e k hk (Option.some.inj h))

/-- World where every endpoint answers 500. -/
def world500 : World := fun _ => .response ⟨500, none⟩

/-- Witness for C4: against a world answering 500 everywhere, all four
higher-level methods raise the same `HTTPError` kind `_api_request` raised. -/
theorem failure_kind_preserved_witness :
    errCls (get_supported_currencies world500).fst = some .HTTPError ∧
    errCls (get_crypto_currencies world500).fst = some .HTTPError ∧
    errCls (get_crypto_currencies_detailed stockedHandler world500 "usd").result
      = some .HTTPError ∧
    errCls (get_specific_crypto stockedHandler world500 "bitcoin").result
      = some .HTTPError := by
  have h := failure_kind_preserved world500 stockedHandler "usd" "bitcoin"
    (Json.arr [Json.str "usd"]) .HTTPError (Or.inl rfl) rfl rfl rfl
  exact ⟨h.1 rfl, h.2.1 rfl, h.2.2.1 rfl, h.2.2.2 rfl⟩

/-! ### C6: local validation of the base currency -/

/-- Claim C6: with the supported-currency cache populated,
`get_crypto_currencies_detailed` raises `ValueError` exactly when the base
currency is not a member of the cached set — and then before any network
request; when it is a member, the method never raises `ValueError` and any
failure has one of the three transport kinds. -/
theorem invalid_currency_local_validation (self : CryptoHandler) (w : World)
    (bc : String) (sc : List Json)
    (hsc : self.supported_currencies = some (Json.arr sc)) :
    (sc.contains (Json.str bc) = false →
      (get_crypto_currencies_detailed self w bc).result =
        .error ⟨.ValueError, "Unsupported currency provided: " ++ bc⟩ ∧
      (get_crypto_currencies_detailed self w bc).requests = []) ∧
    (sc.contains (Json.str bc) = true →
      errCls (get_crypto_currencies_detailed self w bc).result ≠ some .ValueError ∧
      ∀ e, (get_crypto_currencies_detailed self w bc).result = .error e →
        e.cls = .HTTPError ∨ e.cls = .JSONDecodeError ∨ e.cls = .RequestException) := by
  constructor
  · intro hmem
    have hin : pyIn bc (Json.arr sc) = .ok false := by
      simp only [pyIn, hmem]
    refine ⟨?_, ?_⟩ <;> simp only [get_crypto_currencies_detailed, hsc, hin] <;> rfl
  · intro hmem
    have hin : pyIn bc (Json.arr sc) = .ok true := by
      simp only [pyIn, hmem]
    have hres : (get_crypto_currencies_detailed self w bc).result =
        match (_api_request w (coins_markets_url bc)).fst with
        | .ok v => .ok v
        | .error e => .error (rewrap e) := by
      simp only [get_crypto_currencies_detailed, hsc, hin]
      cases hp : _api_request w (coins_markets_url bc) with
      | mk res log => cases res <;> simp
    constructor
    · intro hco
      rw [hres] at hco
      cases hq : (_api_request w (coins_markets_url bc)).fst with
      | ok v => rw [hq] at hco; simp [errCls] at hco
      | error e =>
        rw [hq] at hco
        simp only [errCls] at hco
        have h3 := api_request_error_classes w _ e hq
        have hcl : (rewrap e).cls = e.cls := rewrap_cls_of_transport e h3
        rw [hcl] at hco
        have hk := Option.some.inj hco
        rcases h3 with h | h | h <;> rw [h] at hk <;> exact ExcClass.noConfusion hk
    · intro e he
      rw [hres] at he
      cases hq : (_api_request w (coins_markets_url bc)).fst with
      | ok v => rw [hq] at he; simp at he
      | error e0 =>
        rw [hq] at he
        simp only [Except.error.injEq] at he
        have h3 := api_request_error_classes w _ e0 hq
        have hcl : (rewrap e0).cls = e0.cls := rewrap_cls_of_transport e0 h3
        rw [← he, hcl]
        exact h3

/-- Witness for C6: `"xyz"` is not in the cached set `["usd"]`, so the call
raises `ValueError` and requests nothing, even though the network would
fail. -/
theorem invalid_currency_local_validation_witness :
    (get_crypto_currencies_detailed usdStubHandler failWorld "xyz").result =
      .error ⟨.ValueError, "Unsupported currency provided: " ++ "xyz"⟩ ∧
    (get_crypto_currencies_detailed usdStubHandler failWorld "xyz").requests = [] :=
  (invalid_currency_local_validation usdStubHandler failWorld "xyz"
    [Json.str "usd"] rfl).1 rfl

/-! ### C9: no method mutates the object -/

/-- Claim C9: no operation other than the constructor mutates the client:
whether it returns or raises, each method leaves `base_currency`,
`supported_currencies` and `supported_crypto_currencies` exactly as they
were. -/
theorem no_method_mutates_state (self : CryptoHandler) (w : World) (url id bc : String) :
    (_api_request_m self w url).state = self ∧
    (get_supported_currencies_m self w).state = self ∧
    (get_crypto_currencies_m self w).state = self ∧
    (get_crypto_currencies_detailed self w bc).state = self ∧
    (get_crypto_currencies_detailed_default self w).state = self ∧
    (get_specific_crypto self w id).state = self ∧
    (_is_valid_crypto_id self id).snd = self := by
  have hvalid : ∀ (x : CryptoHandler) (i : String), (_is_valid_crypto_id x i).snd = x := by
    intro x i
    simp only [_is_valid_crypto_id]
    split
    · rfl
    · split <;> rfl
  have hdet : ∀ bc', (get_crypto_currencies_detailed self w bc').state = self := by
    intro bc'
    simp only [get_crypto_currencies_detailed]
    split
    · rfl
    · split
      · rfl
      · split
        · split <;> rfl
        · rfl
  have hspec : (get_specific_crypto self w id).state = self := by
    simp only [get_specific_crypto]
    split
    · exact hvalid self id
    · split <;> exact hvalid self id
  refine ⟨?_, ?_, ?_, hdet bc, hdet "usd", hspec, hvalid self id⟩
  · simp only [_api_request_m]
  · simp only [get_supported_currencies_m]
  · simp only [get_crypto_currencies_m]

/-! ### C10: the stored base-currency setting is never read -/

/-- Claim C10: the `base_currency` field stored at construction is never read
by any operation — every method gives the same result (and issues the same
requests) whatever that field holds; `get_crypto_currencies_detailed` uses
only its own parameter (whose Python default is `"usd"`). -/
theorem base_currency_field_unused (self : CryptoHandler) (w : World)
    (v url bc id : String) :
    (_api_request_m ⟨v, self.supported_currencies, self.supported_crypto_currencies⟩
        w url).result = (_api_request_m self w url).result ∧
    (get_supported_currencies_m ⟨v, self.supported_currencies,
        self.supported_crypto_currencies⟩ w).result
      = (get_supported_currencies_m self w).result ∧
    (get_crypto_currencies_m ⟨v, self.supported_currencies,
        self.supported_crypto_currencies⟩ w).result
      = (get_crypto_currencies_m self w).result ∧
    (get_crypto_currencies_detailed ⟨v, self.supported_currencies,
        self.supported_crypto_currencies⟩ w bc).result
      = (get_crypto_currencies_detailed self w bc).result ∧
    (get_crypto_currencies_detailed ⟨v, self.supported_currencies,
        self.supported_crypto_currencies⟩ w bc).requests
      = (get_crypto_currencies_detailed self w bc).requests ∧
    (get_crypto_currencies_detailed_default ⟨v, self.supported_currencies,
        self.supported_crypto_currencies⟩ w).result
      = (get_crypto_currencies_detailed_default self w).result ∧
    (get_specific_crypto ⟨v, self.supported_currencies,
        self.supported_crypto_currencies⟩ w id).result
      = (get_specific_crypto self w id).result ∧
    (get_specific_crypto ⟨v, self.supported_currencies,
        self.supported_crypto_currencies⟩ w id).requests
      = (get_specific_crypto self w id).requests := by
  obtain ⟨b, sc, scc⟩ := self
  have hdet1 : ∀ bc',
      (get_crypto_currencies_detailed (CryptoHandler.mk v sc scc) w bc').result
        = (get_crypto_currencies_detailed (CryptoHandler.mk b sc scc) w bc').result := by
    intro bc'
    simp only [get_crypto_currencies_detailed]
    split
    · rfl
    · split
      · rfl
      · split
        · split <;> rfl
        · rfl
  have hdet2 : ∀ bc',
      (get_crypto_currencies_detailed (CryptoHandler.mk v sc scc) w bc').requests
        = (get_crypto_currencies_detailed (CryptoHandler.mk b sc scc) w bc').requests := by
    intro bc'
    simp only [get_crypto_currencies_detailed]
    split
    · rfl
    · split
      · rfl
      · split
        · split <;> rfl
        · rfl
  have hvfst : ∀ i, (_is_valid_crypto_id (CryptoHandler.mk v sc scc) i).fst
      = (_is_valid_crypto_id (CryptoHandler.mk b sc scc) i).fst := by
    intro i
    simp only [_is_valid_crypto_id]
    split
    · rfl
    · split <;> rfl
  have hspec1 : (get_specific_crypto (CryptoHandler.mk v sc scc) w id).result
      = (get_specific_crypto (CryptoHandler.mk b sc scc) w id).result := by
    simp only [get_specific_crypto]
    rw [hvfst id]
    split
    · rfl
    · split <;> rfl
  have hspec2 : (get_specific_crypto (CryptoHandler.mk v sc scc) w id).requests
      = (get_specific_crypto (CryptoHandler.mk b sc scc) w id).requests := by
    simp only [get_specific_crypto]
    rw [hvfst id]
    split
    · rfl
    · split <;> rfl
  refine ⟨?_, ?_, ?_, hdet1 bc, hdet2 bc, ?_, hspec1, hspec2⟩
  · simp only [_api_request_m]
  · simp only [get_supported_currencies_m]
  · simp only [get_crypto_currencies_m]
  · simp only [get_crypto_currencies_detailed_default]
    exact hdet1 "usd"
